import Mathlib

/-!
Verification of the content-validation subsystem of a static portfolio site.

The embedded code comes from `src/utils/contentHelpers.ts` (schemas,
`validateContentFile`, `validateCollection`, `validateAllContent`,
`validateContentCompleteness`) and from the build-time CLI script
(`runValidation`, `watchContent`).  File-system access is modelled by an
explicit state (`FS`) mapping paths to read outcomes; YAML front-matter is
modelled by a JSON-like value type (`Jval`), gray-matter parsing by the
`FileRead.ok` outcome carrying the parsed front-matter and the body text.
-/

/-- JSON-like values, the result of parsing YAML front-matter. -/
inductive Jval where
  | jstr (s : String)
  | jnum (n : Int)
  | jbool (b : Bool)
  | jarr (xs : List Jval)
  | jobj (fields : List (String × Jval))
  | jnull

/-- A parsed front-matter object: named fields of a JS object. -/
def Frontmatter := List (String × Jval)

/-- Field lookup on a front-matter object (JS property access). -/
def fmLookup : Frontmatter → String → Option Jval
  | [], _ => none
  | (k, v) :: rest, key => if k == key then some v else fmLookup rest key

/-- JavaScript truthiness of a value. -/
def truthy : Jval → Bool
  | .jstr s => s ≠ ""
  | .jnum n => n ≠ 0
  | .jbool b => b
  | .jarr _ => true
  | .jobj _ => true
  | .jnull => false

/-- The `typeof`-style name zod reports for a mismatched value. -/
def typeName : Jval → String
  | .jstr _ => "string"
  | .jnum _ => "number"
  | .jbool _ => "boolean"
  | .jarr _ => "array"
  | .jobj _ => "object"
  | .jnull => "null"

/-- Character-list test that `pat` starts `cs` (models JS `String.startsWith`,
kept executable down to the kernel). -/
def charsStart : List Char → List Char → Bool
  | [], _ => true
  | _ :: _, [] => false
  | p :: ps, c :: cs => p == c && charsStart ps cs

/-- Models JS `s.startsWith(pat)`. -/
def strStarts (s pat : String) : Bool := charsStart pat.data s.data

/-- Models JS `s.endsWith(pat)`. -/
def strEnds (s pat : String) : Bool := charsStart pat.data.reverse s.data.reverse

/-- ASCII whitespace, for modelling JS `String.trim`. -/
def isWs (c : Char) : Bool := c == ' ' || c == '\t' || c == '\n' || c == '\r'

/-- Models JS `s.trim()`. -/
def jsTrim (s : String) : String :=
  ⟨((s.data.dropWhile isWs).reverse.dropWhile isWs).reverse⟩

/-- Models JS `s.length` (code-point count stands in for UTF-16 length). -/
def strLen (s : String) : Nat := s.data.length

/-- Models `path.join(a, b)`; `process.cwd()` is elided, paths are relative. -/
def pathJoin (a b : String) : String := a ++ "/" ++ b

/-- One issue reported by a zod `safeParse`: a path into the object and a
message.  `error.path.join('.')` is applied when issues become errors. -/
structure ZodIssue where
  path : List String
  message : String
deriving DecidableEq

/-- Zod check for `z.string().min(n, msg)` on a required field, at path
prefix `p`.  A missing key yields zod's "Required" issue; a non-string an
invalid-type issue; a short string the custom message. -/
def zReqStrMin (p : List String) (fm : Frontmatter) (k : String) (n : Nat) (msg : String) :
    List ZodIssue :=
  match fmLookup fm k with
  | none => [⟨p ++ [k], "Required"⟩]
  | some (.jstr s) => if strLen s < n then [⟨p ++ [k], msg⟩] else []
  | some v => [⟨p ++ [k], "Expected string, received " ++ typeName v⟩]

/-- Models the zod library's email-format test (`z.string().email`); the
library's exact regular expression is external to this repository, so a
structural local-part/domain check stands in for it. -/
def isEmail (s : String) : Bool :=
  match s.data.span (fun c => c != '@') with
  | (lp, _ :: dom) => !lp.isEmpty && !dom.isEmpty && dom.contains '.' && !dom.contains '@'
  | (_, []) => false

/-- Zod check for `z.string().email(msg)` on a required field. -/
def zReqEmail (p : List String) (fm : Frontmatter) (k : String) (msg : String) :
    List ZodIssue :=
  match fmLookup fm k with
  | none => [⟨p ++ [k], "Required"⟩]
  | some (.jstr s) => if isEmail s then [] else [⟨p ++ [k], msg⟩]
  | some v => [⟨p ++ [k], "Expected string, received " ++ typeName v⟩]

/-- Models the zod library's URL-format test (`z.string().url`); the library
delegates to the runtime URL parser, external to this repository, so a
scheme check stands in for it. -/
def isUrl (s : String) : Bool := strStarts s "http://" || strStarts s "https://"

/-- Zod check for `z.string().url(msg).optional()`. -/
def zOptUrl (p : List String) (fm : Frontmatter) (k : String) (msg : String) :
    List ZodIssue :=
  match fmLookup fm k with
  | none => []
  | some (.jstr s) => if isUrl s then [] else [⟨p ++ [k], msg⟩]
  | some v => [⟨p ++ [k], "Expected string, received " ++ typeName v⟩]

/-- Zod check for `z.string().optional()`. -/
def zOptStr (p : List String) (fm : Frontmatter) (k : String) : List ZodIssue :=
  match fmLookup fm k with
  | none => []
  | some (.jstr _) => []
  | some v => [⟨p ++ [k], "Expected string, received " ++ typeName v⟩]

/-- Zod check for `z.boolean().default(b)`: the default fills a missing key,
a present key must be a boolean. -/
def zBoolDefault (p : List String) (fm : Frontmatter) (k : String) : List ZodIssue :=
  match fmLookup fm k with
  | none => []
  | some (.jbool _) => []
  | some v => [⟨p ++ [k], "Expected boolean, received " ++ typeName v⟩]

/-- Zod check for `z.number().default(n)`. -/
def zNumDefault (p : List String) (fm : Frontmatter) (k : String) : List ZodIssue :=
  match fmLookup fm k with
  | none => []
  | some (.jnum _) => []
  | some v => [⟨p ++ [k], "Expected number, received " ++ typeName v⟩]

/-- Zod check for `z.number().min(1900).max(maxYear, msgMax)` (the
publication `year`; `maxYear` is `new Date().getFullYear() + 5`, an
environment input). -/
def zYearRange (p : List String) (fm : Frontmatter) (k : String) (maxYear : Int)
    (msgMax : String) : List ZodIssue :=
  match fmLookup fm k with
  | none => [⟨p ++ [k], "Required"⟩]
  | some (.jnum n) =>
      (if n < 1900 then [⟨p ++ [k], "Number must be greater than or equal to 1900"⟩] else [])
        ++ (if maxYear < n then [⟨p ++ [k], msgMax⟩] else [])
  | some v => [⟨p ++ [k], "Expected number, received " ++ typeName v⟩]

/-- Zod check for `z.enum(vals, { errorMap })`: the custom error map rewrites
every issue of the field (missing, wrong type, or not a member) to `msg`. -/
def zEnumMapped (p : List String) (fm : Frontmatter) (k : String) (vals : List String)
    (msg : String) : List ZodIssue :=
  match fmLookup fm k with
  | some (.jstr s) => if vals.contains s then [] else [⟨p ++ [k], msg⟩]
  | _ => [⟨p ++ [k], msg⟩]

/-- Element-wise zod check that every member of a parsed array is a string;
issue paths carry the element index, as zod does. -/
def zStrElems (p : List String) (k : String) (xs : List Jval) : List ZodIssue :=
  xs.enum.flatMap fun e =>
    match e.2 with
    | .jstr _ => []
    | v => [⟨p ++ [k, toString e.1], "Expected string, received " ++ typeName v⟩]

/-- Zod check for `z.array(z.string()).min(n, msg)`: zod records the
too-small issue before the element issues. -/
def zArrStrMin (p : List String) (fm : Frontmatter) (k : String) (n : Nat) (msg : String) :
    List ZodIssue :=
  match fmLookup fm k with
  | none => [⟨p ++ [k], "Required"⟩]
  | some (.jarr xs) =>
      (if xs.length < n then [⟨p ++ [k], msg⟩] else []) ++ zStrElems p k xs
  | some v => [⟨p ++ [k], "Expected array, received " ++ typeName v⟩]

/-- Zod check for `z.array(z.string()).optional()`. -/
def zArrStrOpt (p : List String) (fm : Frontmatter) (k : String) : List ZodIssue :=
  match fmLookup fm k with
  | none => []
  | some (.jarr xs) => zStrElems p k xs
  | some v => [⟨p ++ [k], "Expected array, received " ++ typeName v⟩]

/-- Zod check for the required `social` object of the profile schema: an
object whose four members are all `z.string().optional()`. -/
def zSocial (fm : Frontmatter) : List ZodIssue :=
  match fmLookup fm "social" with
  | none => [⟨["social"], "Required"⟩]
  | some (.jobj o) =>
      zOptStr ["social"] o "github" ++ zOptStr ["social"] o "linkedin"
        ++ zOptStr ["social"] o "twitter" ++ zOptStr ["social"] o "scholar"
  | some v => [⟨["social"], "Expected object, received " ++ typeName v⟩]

/-- Issues of `profileSchema.safeParse`, field by field in schema order. -/
def profileIssues (fm : Frontmatter) : List ZodIssue :=
  zReqStrMin [] fm "name" 1 "Name is required"
    ++ zReqStrMin [] fm "title" 1 "Title is required"
    ++ zReqStrMin [] fm "bio" 10 "Bio should be at least 10 characters"
    ++ zReqEmail [] fm "email" "Invalid email format"
    ++ zReqStrMin [] fm "location" 1 "Location is required"
    ++ zReqStrMin [] fm "profileImage" 1 "Profile image path is required"
    ++ zSocial fm

/-- Issues of one element of the inner `skills` array of `skillsSchema`. -/
def skillIssues (p : List String) : Jval → List ZodIssue
  | .jobj o =>
      zReqStrMin p o "name" 1 "Skill name is required"
        ++ zEnumMapped p o "level" ["Beginner", "Intermediate", "Advanced", "Expert"]
            "Level must be one of: Beginner, Intermediate, Advanced, Expert"
        ++ zReqStrMin p o "color" 1 "Color is required"
  | v => [⟨p, "Expected object, received " ++ typeName v⟩]

/-- Issues of the `skills` array of one category of `skillsSchema`. -/
def categorySkillsIssues (p : List String) (o : Frontmatter) : List ZodIssue :=
  match fmLookup o "skills" with
  | none => [⟨p ++ ["skills"], "Required"⟩]
  | some (.jarr xs) =>
      (if xs.length < 1 then [⟨p ++ ["skills"], "Each category must have at least one skill"⟩]
        else [])
        ++ xs.enum.flatMap (fun e => skillIssues (p ++ ["skills", toString e.1]) e.2)
  | some v => [⟨p ++ ["skills"], "Expected array, received " ++ typeName v⟩]

/-- Issues of one element of the `categories` array of `skillsSchema`. -/
def categoryIssues (p : List String) : Jval → List ZodIssue
  | .jobj o => zReqStrMin p o "name" 1 "Category name is required" ++ categorySkillsIssues p o
  | v => [⟨p, "Expected object, received " ++ typeName v⟩]

/-- Issues of `skillsSchema.safeParse`. -/
def skillsIssues (fm : Frontmatter) : List ZodIssue :=
  match fmLookup fm "categories" with
  | none => [⟨["categories"], "Required"⟩]
  | some (.jarr xs) =>
      (if xs.length < 1 then [⟨["categories"], "At least one skill category is required"⟩]
        else [])
        ++ xs.enum.flatMap (fun e => categoryIssues ["categories", toString e.1] e.2)
  | some v => [⟨["categories"], "Expected array, received " ++ typeName v⟩]

/-- Issues of `projectSchema.safeParse`. -/
def projectIssues (fm : Frontmatter) : List ZodIssue :=
  zReqStrMin [] fm "title" 1 "Project title is required"
    ++ zReqStrMin [] fm "description" 10 "Description should be at least 10 characters"
    ++ zReqStrMin [] fm "image" 1 "Image path is required"
    ++ zOptUrl [] fm "github" "Invalid GitHub URL"
    ++ zOptUrl [] fm "demo" "Invalid demo URL"
    ++ zBoolDefault [] fm "featured"
    ++ zNumDefault [] fm "order"
    ++ zArrStrMin [] fm "tags" 1 "At least one tag is required"
    ++ zOptStr [] fm "startDate"
    ++ zOptStr [] fm "endDate"

/-- Issues of `publicationSchema.safeParse`; `maxYear` is the load-time
value of `new Date().getFullYear() + 5`. -/
def publicationIssues (maxYear : Int) (fm : Frontmatter) : List ZodIssue :=
  zReqStrMin [] fm "title" 1 "Publication title is required"
    ++ zArrStrMin [] fm "authors" 1 "At least one author is required"
    ++ zReqStrMin [] fm "venue" 1 "Venue is required"
    ++ zYearRange [] fm "year" maxYear "Year must be reasonable"
    ++ zOptUrl [] fm "url" "Invalid URL"
    ++ zEnumMapped [] fm "type" ["conference", "journal", "patent", "preprint"]
        "Type must be one of: conference, journal, patent, preprint"
    ++ zOptStr [] fm "doi"
    ++ zOptStr [] fm "abstract"

/-- Issues of `experienceSchema.safeParse`. -/
def experienceIssues (fm : Frontmatter) : List ZodIssue :=
  zReqStrMin [] fm "company" 1 "Company name is required"
    ++ zReqStrMin [] fm "position" 1 "Position is required"
    ++ zReqStrMin [] fm "startDate" 1 "Start date is required"
    ++ zOptStr [] fm "endDate"
    ++ zReqStrMin [] fm "location" 1 "Location is required"
    ++ zOptStr [] fm "logo"
    ++ zOptUrl [] fm "website" "Invalid website URL"
    ++ zArrStrMin [] fm "achievements" 1 "At least one achievement is required"
    ++ zArrStrOpt [] fm "technologies"

/-- Issues of `educationSchema.safeParse`. -/
def educationIssues (fm : Frontmatter) : List ZodIssue :=
  zReqStrMin [] fm "institution" 1 "Institution name is required"
    ++ zReqStrMin [] fm "degree" 1 "Degree is required"
    ++ zReqStrMin [] fm "field" 1 "Field of study is required"
    ++ zReqStrMin [] fm "startDate" 1 "Start date is required"
    ++ zOptStr [] fm "endDate"
    ++ zReqStrMin [] fm "location" 1 "Location is required"
    ++ zOptStr [] fm "logo"
    ++ zOptStr [] fm "gpa"
    ++ zArrStrOpt [] fm "honors"
    ++ zArrStrOpt [] fm "coursework"
    ++ zOptStr [] fm "thesis"

/-- Outcome of `fs.existsSync` + `fs.readFileSync` + `matter(...)` on one
content file: the file may be absent, reading or front-matter parsing may
throw, or parsing yields a front-matter object and the body text. -/
inductive FileRead where
  | missing
  | raises (msg : String)
  | ok (fm : Frontmatter) (body : String)

/-- Outcome of `fs.existsSync` + `fs.readdirSync` on one directory. -/
inductive DirRead where
  | missing
  | raises (msg : String)
  | ok (entries : List String)

/-- The file-system state a validation run sees. -/
structure FS where
  file : String → FileRead
  dir : String → DirRead
  publicAsset : String → Bool

/-- Severity tag carried by recorded validation errors. -/
inductive Severity where
  | error
  | warning
deriving DecidableEq

/-- One recorded validation error (interface `ValidationError`). -/
structure ValidationError where
  file : String
  field : Option String := none
  message : String
  severity : Severity
deriving DecidableEq

/-- One recorded validation warning (interface `ValidationWarning`). -/
structure ValidationWarning where
  file : String
  field : Option String := none
  message : String
deriving DecidableEq

/-- Result of a validation pass (interface `ValidationResult`). -/
structure ValidationResult where
  isValid : Bool
  errors : List ValidationError
  warnings : List ValidationWarning
deriving DecidableEq

/-- Embeds `validateContentFile(filePath, schema, contentType)`: checks
existence, parses, applies the schema, then adds the short-content and
referenced-asset warnings; any read/parse throw is caught and recorded as a
parse error.  The zod schema argument is the issue function of its
`safeParse`. -/
def validateContentFile (fs : FS) (filePath : String)
    (schema : Frontmatter → List ZodIssue) (contentType : String) : ValidationResult :=
  match fs.file filePath with
  | .missing =>
      { isValid := false
        errors := [{ file := filePath, message := contentType ++ " file not found"
                     severity := .error }]
        warnings := [] }
  | .raises msg =>
      let errors : List ValidationError :=
        [{ file := filePath, message := "Failed to parse file: " ++ msg, severity := .error }]
      { isValid := errors.isEmpty, errors := errors, warnings := [] }
  | .ok fm body =>
      let errors : List ValidationError :=
        (schema fm).map fun i =>
          { file := filePath, field := some (String.intercalate "." i.path)
            message := i.message, severity := .error }
      let shortWarnings : List ValidationWarning :=
        if (contentType == "project" || contentType == "publication"
              || contentType == "experience" || contentType == "education")
            && (body == "" || strLen (jsTrim body) < 50) then
          [{ file := filePath
             message := contentType ++
               " content is very short (less than 50 characters). Consider adding more details." }]
        else []
      let imageWarnings : List ValidationWarning :=
        match fmLookup fm "image" with
        | some (.jstr s) =>
            if s ≠ "" && !fs.publicAsset (pathJoin "public" s) then
              [{ file := filePath, field := some "image"
                 message := "Referenced image file not found: " ++ s }]
            else []
        | _ => []
      let logoWarnings : List ValidationWarning :=
        match fmLookup fm "logo" with
        | some (.jstr s) =>
            if s ≠ "" && !fs.publicAsset (pathJoin "public" s) then
              [{ file := filePath, field := some "logo"
                 message := "Referenced logo file not found: " ++ s }]
            else []
        | _ => []
      { isValid := errors.isEmpty
        errors := errors
        warnings := shortWarnings ++ imageWarnings ++ logoWarnings }

/-- Embeds `validateProfile()`. -/
def validateProfile (fs : FS) : ValidationResult :=
  validateContentFile fs "src/content/profile/main.md" profileIssues "profile"

/-- Embeds `validateSkills()`. -/
def validateSkills (fs : FS) : ValidationResult :=
  validateContentFile fs "src/content/skills/main.md" skillsIssues "skills"

/-- The filename filter of `validateCollection`: `.md` files that are not
dot-files. -/
def mdEntry (f : String) : Bool := strEnds f ".md" && !strStarts f "."

/-- Embeds `validateCollection(collectionName, schema)`: lists the
directory, warns when no content file matches the filter, validates each
matching file in order, and aggregates errors and warnings. -/
def validateCollection (fs : FS) (collectionName : String)
    (schema : Frontmatter → List ZodIssue) : ValidationResult :=
  let collectionPath := pathJoin "src/content" collectionName
  match fs.dir collectionPath with
  | .missing =>
      { isValid := false
        errors := [{ file := collectionPath
                     message := "Collection directory not found: " ++ collectionName
                     severity := .error }]
        warnings := [] }
  | .raises msg =>
      let allErrors : List ValidationError :=
        [{ file := collectionPath
           message := "Failed to read collection directory: " ++ msg, severity := .error }]
      { isValid := allErrors.isEmpty, errors := allErrors, warnings := [] }
  | .ok entries =>
      let files := entries.filter mdEntry
      let emptyWarnings : List ValidationWarning :=
        if files.isEmpty then
          [{ file := collectionPath
             message := "No content files found in " ++ collectionName ++ " collection" }]
        else []
      let results := files.map fun f =>
        validateContentFile fs (pathJoin collectionPath f) schema collectionName
      let allErrors := results.flatMap (·.errors)
      let allWarnings := emptyWarnings ++ results.flatMap (·.warnings)
      { isValid := allErrors.isEmpty, errors := allErrors, warnings := allWarnings }

/-- Embeds `validateAllContent()`: profile, skills, then the four
collections, each paired with its schema, aggregated in order.  `maxYear`
is the load-time bound of the publication year check. -/
def validateAllContent (maxYear : Int) (fs : FS) : ValidationResult :=
  let profileResult := validateProfile fs
  let skillsResult := validateSkills fs
  let projectsResult := validateCollection fs "projects" projectIssues
  let publicationsResult := validateCollection fs "publications" (publicationIssues maxYear)
  let experienceResult := validateCollection fs "experience" experienceIssues
  let educationResult := validateCollection fs "education" educationIssues
  let allErrors :=
    profileResult.errors ++ skillsResult.errors ++ projectsResult.errors
      ++ publicationsResult.errors ++ experienceResult.errors ++ educationResult.errors
  let allWarnings :=
    profileResult.warnings ++ skillsResult.warnings ++ projectsResult.warnings
      ++ publicationsResult.warnings ++ experienceResult.warnings ++ educationResult.warnings
  { isValid := allErrors.isEmpty, errors := allErrors, warnings := allWarnings }

/-- The four content collections the CLI summary and the completeness
scorer read. -/
def contentDirs : List String := ["projects", "publications", "experience", "education"]

/-- Whether a directory read raises (exists but `readdirSync` throws); the
summary and scorer guard `existsSync` first, so a missing directory does
not raise. -/
def dirRaises (fs : FS) (name : String) : Bool :=
  match fs.dir (pathJoin "src/content" name) with
  | .raises _ => true
  | _ => false

/-- Whether `getContentCounts()` (run by `printContentSummary` inside
`runValidation`'s try block) throws on some collection directory. -/
def contentCountsRaise (fs : FS) : Bool := contentDirs.any (dirRaises fs)

/-- Observable outcome of one `runValidation()` call: the process exits
with a code, or the call returns a boolean and the process lives on. -/
inductive CLIOutcome where
  | exited (code : Nat)
  | completed (ok : Bool)
deriving DecidableEq

/-- Embeds `runValidation()` of the validation script: the content summary
runs first inside the try block (its directory reads can throw); then the
validation result decides the outcome.  Outside watch mode a failure (or a
caught script error) exits with status 1; in watch mode the call just
returns `false` and the process keeps running. -/
def runValidation (isWatchMode : Bool) (maxYear : Int) (fs : FS) : CLIOutcome :=
  if contentCountsRaise fs then
    if isWatchMode then .completed false else .exited 1
  else
    let result := validateAllContent maxYear fs
    if !result.isValid then
      if isWatchMode then .completed false else .exited 1
    else .completed true

/-- Embeds the `fs.watch` callback predicate of `watchContent()`: a change
event re-runs validation exactly when the event carries a filename ending
in `.md` (the watcher is rooted at the content directory). -/
def watchTriggersRevalidation (filename : Option String) : Bool :=
  match filename with
  | some f => strEnds f ".md"
  | none => false

/-- Per-section outcome inside `validateContentCompleteness`: earned
points and the pushes to `completedSections`, `missingSections` and
`suggestions` made by that section's block. -/
structure SectionResult where
  pts : Nat
  completed : List String
  missing : List String
  suggestions : List String
deriving DecidableEq

/-- The profile point sum of `validateContentCompleteness` as a function of
its four scored conditions. -/
def profilePts (basics image social longBody : Bool) : Nat :=
  (if basics then 10 else 0) + (if image then 5 else 0)
    + (if social then 3 else 0) + (if longBody then 2 else 0)

/-- The skills point sum of `validateContentCompleteness` as a function of
its two scored conditions. -/
def skillsPts (threeCategories someCatWithThree : Bool) : Nat :=
  (if threeCategories then 10 else 0) + (if someCatWithThree then 5 else 0)

/-- The collection points of `validateContentCompleteness` as a function of
weight, minimum file count, and actual `.md` file count.  `weight / 2`
embeds `Math.floor(weight * 0.5)`, exact for these small integers. -/
def collectionPts (weight minFiles count : Nat) : Nat :=
  if minFiles ≤ count then weight
  else if 0 < count then weight / 2
  else 0

/-- Number of own keys `Object.keys` reports for a value (array indices for
arrays, character indices for strings, none for primitives). -/
def jsKeysCount : Jval → Nat
  | .jobj o => o.length
  | .jarr xs => xs.length
  | .jstr s => strLen s
  | _ => 0

/-- JS `v.length >= n` where `v` may not be an array: arrays and strings
have a `length`, any other value gives `undefined >= n`, which is false. -/
def jsLenGe (v : Jval) (n : Nat) : Bool :=
  match v with
  | .jarr xs => n ≤ xs.length
  | .jstr s => n ≤ strLen s
  | _ => false

/-- Truthiness of a possibly-absent property. -/
def truthyLookup (fm : Frontmatter) (k : String) : Bool :=
  match fmLookup fm k with
  | some v => truthy v
  | none => false

/-- The profile block of `validateContentCompleteness`: on a successful
read-and-parse, the four scored conditions decide the points and, below
15 points, the targeted suggestions; a read or parse throw is caught and
falls back to the generic suggestion. -/
def profileSection (read : FileRead) : SectionResult :=
  match read with
  | .ok fm body =>
      let basics := truthyLookup fm "name" && truthyLookup fm "title"
        && truthyLookup fm "bio" && truthyLookup fm "email"
      let image := truthyLookup fm "profileImage"
      let social :=
        match fmLookup fm "social" with
        | some v => truthy v && decide (0 < jsKeysCount v)
        | none => false
      let longBody := decide (100 < strLen body)
      let pts := profilePts basics image social longBody
      if 15 ≤ pts then { pts := pts, completed := ["Profile"], missing := [], suggestions := [] }
      else
        { pts := pts
          completed := []
          missing := ["Profile"]
          suggestions :=
            (if !image then ["Add a profile image to make your portfolio more personal"] else [])
              ++ (if !social then ["Add social media links to increase connectivity"] else [])
              ++ (if body == "" || strLen body < 100 then
                    ["Expand your profile description with more details about yourself"]
                  else []) }
  | _ =>
      { pts := 0, completed := [], missing := ["Profile"]
        suggestions := ["Create a complete profile with name, title, bio, email, and image"] }

/-- The inner condition `cat.skills && cat.skills.length >= 3` on one
category element; `none` models a thrown `TypeError` (property access on
`null`). -/
def categoryHasThreeSkills : Jval → Option Bool
  | .jnull => none
  | .jobj o =>
      some (match fmLookup o "skills" with
            | some v => truthy v && jsLenGe v 3
            | none => false)
  | _ => some false

/-- Short-circuiting `Array.some` whose predicate may throw. -/
def jsSome (f : Jval → Option Bool) : List Jval → Option Bool
  | [] => some false
  | x :: xs =>
      match f x with
      | none => none
      | some true => some true
      | some false => jsSome f xs

/-- Evaluates the two scored skills conditions of
`validateContentCompleteness`; `none` models a thrown `TypeError`
(calling `.some` on a truthy non-array `categories`, or a `null` category
element), which the surrounding catch absorbs. -/
def skillsConditions (fm : Frontmatter) : Option (Bool × Bool) :=
  match fmLookup fm "categories" with
  | none => some (false, false)
  | some v =>
      if truthy v then
        match v with
        | .jarr xs => do
            let c3 ← jsSome categoryHasThreeSkills xs
            pure (3 ≤ xs.length, c3)
        | _ => none
      else some (false, false)

/-- The skills block of `validateContentCompleteness`: a read, parse, or
condition-evaluation throw is caught and scores zero with the generic
suggestion. -/
def skillsSection (read : FileRead) : SectionResult :=
  match read with
  | .ok fm _ =>
      match skillsConditions fm with
      | some (threeCats, someCat3) =>
          let pts := skillsPts threeCats someCat3
          if 10 ≤ pts then
            { pts := pts, completed := ["Skills"], missing := [], suggestions := [] }
          else
            { pts := pts, completed := [], missing := ["Skills"]
              suggestions := ["Add at least 3 skill categories with multiple skills each"] }
      | none =>
          { pts := 0, completed := [], missing := ["Skills"]
            suggestions := ["Create a skills section with categorized technical skills"] }
  | _ =>
      { pts := 0, completed := [], missing := ["Skills"]
        suggestions := ["Create a skills section with categorized technical skills"] }

/-- Capitalised section title, `name.charAt(0).toUpperCase() + name.slice(1)`. -/
def sectionTitle (name : String) : String := name.capitalize

/-- The suggestion tail used by the collection blocks of
`validateContentCompleteness`. -/
def showcaseOf (name : String) : String :=
  if name == "publications" then "research work" else "professional background"

/-- The `.md` entry count used by the scorer and the CLI summary (unlike
the validator's filter, dot-files are not excluded here). -/
def mdCount (entries : List String) : Nat :=
  (entries.filter (fun f => strEnds f ".md")).length

/-- One collection block of `validateContentCompleteness`: counts the
`.md` entries (no dot-file filter here), awards full weight at or above
`minFiles`, floor-half weight when non-empty, zero otherwise; `none`
models an uncaught `readdirSync` throw, which aborts the whole scorer. -/
def collectionSection (fs : FS) (name : String) (weight minFiles : Nat) :
    Option SectionResult :=
  match fs.dir (pathJoin "src/content" name) with
  | .raises _ => none
  | .missing =>
      some { pts := 0, completed := [], missing := [sectionTitle name]
             suggestions := ["Create " ++ name ++ " section to showcase your " ++ showcaseOf name] }
  | .ok entries =>
      let n := mdCount entries
      if minFiles ≤ n then
        some { pts := weight, completed := [sectionTitle name], missing := [], suggestions := [] }
      else if 0 < n then
        some { pts := weight / 2, completed := [], missing := [sectionTitle name]
               suggestions := ["Add more " ++ name ++ " - you have " ++ toString n
                 ++ " but " ++ toString minFiles ++ " or more is recommended"] }
      else
        some { pts := 0, completed := [], missing := [sectionTitle name]
               suggestions := ["Add " ++ name ++ " to showcase your " ++ showcaseOf name] }

/-- Result record of `validateContentCompleteness`. -/
structure Completeness where
  score : Nat
  suggestions : List String
  completedSections : List String
  missingSections : List String
deriving DecidableEq

/-- Embeds `validateContentCompleteness()`: profile and skills blocks (each
with its own catch), then the four weighted collections in source order;
an uncaught collection-directory throw yields `none`.  The final
`Math.round((totalScore / 100) * 100)` is the identity on integer scores
in `[0, 100]` (the float round-trip error is far below one half), so the
score is the plain point total. -/
def validateContentCompleteness (fs : FS) : Option Completeness :=
  let p := profileSection (fs.file "src/content/profile/main.md")
  let s := skillsSection (fs.file "src/content/skills/main.md")
  match collectionSection fs "projects" 25 2, collectionSection fs "experience" 20 1,
      collectionSection fs "publications" 10 1, collectionSection fs "education" 10 1 with
  | some c1, some c2, some c3, some c4 =>
      some { score := p.pts + s.pts + (c1.pts + c2.pts + c3.pts + c4.pts)
             suggestions := p.suggestions ++ s.suggestions ++ c1.suggestions
               ++ c2.suggestions ++ c3.suggestions ++ c4.suggestions
             completedSections := p.completed ++ s.completed ++ c1.completed
               ++ c2.completed ++ c3.completed ++ c4.completed
             missingSections := p.missing ++ s.missing ++ c1.missing
               ++ c2.missing ++ c3.missing ++ c4.missing }
  | _, _, _, _ => none

/-- Declarative reading of `z.string().min(n, _)` on a required field: the
key holds a string of at least `n` characters. -/
def reqStrOK (fm : Frontmatter) (k : String) (n : Nat) : Bool :=
  match fmLookup fm k with
  | some (.jstr s) => decide (n ≤ strLen s)
  | _ => false

/-- Declarative reading of `z.string().email(_)` on a required field. -/
def emailOK (fm : Frontmatter) (k : String) : Bool :=
  match fmLookup fm k with
  | some (.jstr s) => isEmail s
  | _ => false

/-- Declarative reading of `z.string().optional()`: absent or a string. -/
def optStrOK (o : Frontmatter) (k : String) : Bool :=
  match fmLookup o k with
  | none => true
  | some (.jstr _) => true
  | _ => false

/-- Declarative reading of the required `social` object of the profile
schema. -/
def socialOK (fm : Frontmatter) : Bool :=
  match fmLookup fm "social" with
  | some (.jobj o) =>
      optStrOK o "github" && optStrOK o "linkedin" && optStrOK o "twitter" && optStrOK o "scholar"
  | _ => false

/-- Declarative satisfaction of the whole profile schema, field by field. -/
def profileSatisfies (fm : Frontmatter) : Bool :=
  reqStrOK fm "name" 1 && reqStrOK fm "title" 1 && reqStrOK fm "bio" 10
    && emailOK fm "email" && reqStrOK fm "location" 1 && reqStrOK fm "profileImage" 1
    && socialOK fm

/-- The top-level required fields of the profile schema. -/
def profileRequiredKeys : List String :=
  ["name", "title", "bio", "email", "location", "profileImage", "social"]

/-- Removes one front-matter field (drops every entry with that key). -/
def removeKey (fm : Frontmatter) (k : String) : Frontmatter :=
  fm.filter (fun e => e.1 != k)

/-- A schema-valid profile front-matter, used as concrete test data. -/
def fmProfileOk : Frontmatter :=
  [("name", .jstr "Ada"), ("title", .jstr "Engineer"), ("bio", .jstr "0123456789"),
   ("email", .jstr "ada@example.com"), ("location", .jstr "Earth"),
   ("profileImage", .jstr "images/profile.png"),
   ("social", .jobj [("github", .jstr "https://github.com/ada")])]

/-- A schema-valid skills front-matter, used as concrete test data. -/
def fmSkillsOk : Frontmatter :=
  [("categories", .jarr [.jobj [("name", .jstr "Languages"),
    ("skills", .jarr [.jobj [("name", .jstr "Python"), ("level", .jstr "Expert"),
      ("color", .jstr "blue")]])]])]

/-- Concrete state: valid profile and skills files, all four collection
directories present but holding no files. -/
def fsAllPass : FS :=
  { file := fun p =>
      if p == "src/content/profile/main.md" then .ok fmProfileOk ""
      else if p == "src/content/skills/main.md" then .ok fmSkillsOk ""
      else .missing
    dir := fun _ => .ok []
    publicAsset := fun _ => true }

/-- Concrete state: nothing exists. -/
def fsAllMissing : FS :=
  { file := fun _ => .missing, dir := fun _ => .missing, publicAsset := fun _ => false }

/-- Concrete state: every directory read throws. -/
def fsDirRaises : FS :=
  { file := fun _ => .missing, dir := fun _ => .raises "EACCES", publicAsset := fun _ => false }

/-- Concrete state: the projects collection holds one file whose parse
throws and one that parses cleanly. -/
def fsParseMix : FS :=
  { file := fun p =>
      if p == "src/content/projects/a.md" then .raises "boom"
      else if p == "src/content/projects/b.md" then .ok [] ""
      else .missing
    dir := fun p => if p == "src/content/projects" then .ok ["a.md", "b.md"] else .missing
    publicAsset := fun _ => false }

/-- Concrete state: every content file parses to empty front-matter with a
ten-character body, every directory lists a single `a.md`. -/
def fsShortProject : FS :=
  { file := fun _ => .ok [] "Too short.", dir := fun _ => .ok ["a.md"],
    publicAsset := fun _ => false }

/-- Concrete state: only the projects directory exists and is empty. -/
def fsEmptyProjects : FS :=
  { file := fun _ => .missing
    dir := fun p => if p == "src/content/projects" then .ok [] else .missing
    publicAsset := fun _ => false }

/-- `fsEmptyProjects` after one `.md` file lands in the projects
directory. -/
def fsOneProject : FS :=
  { file := fun _ => .missing
    dir := fun p => if p == "src/content/projects" then .ok ["p1.md"] else .missing
    publicAsset := fun _ => false }

/-- Concrete state: a collection directory with entries that all fail the
`.md`-and-not-dot-file filter. -/
def fsJunkEntries : FS :=
  { file := fun _ => .missing
    dir := fun p => if p == "src/content/projects" then .ok ["notes.txt", ".draft.md"] else .missing
    publicAsset := fun _ => false }

/-- The completeness record of the all-missing state. -/
def compAllMissing : Completeness :=
  { score := 0
    suggestions := ["Create a complete profile with name, title, bio, email, and image",
      "Create a skills section with categorized technical skills",
      "Create projects section to showcase your professional background",
      "Create experience section to showcase your professional background",
      "Create publications section to showcase your research work",
      "Create education section to showcase your professional background"]
    completedSections := []
    missingSections := ["Profile", "Skills", "Projects", "Experience", "Publications",
      "Education"] }

/-- The completeness record of `fsEmptyProjects`. -/
def compEmptyProjects : Completeness :=
  { score := 0
    suggestions := ["Create a complete profile with name, title, bio, email, and image",
      "Create a skills section with categorized technical skills",
      "Add projects to showcase your professional background",
      "Create experience section to showcase your professional background",
      "Create publications section to showcase your research work",
      "Create education section to showcase your professional background"]
    completedSections := []
    missingSections := ["Profile", "Skills", "Projects", "Experience", "Publications",
      "Education"] }

/-- The completeness record of `fsOneProject`: one project file earns the
floor of half the 25-point projects weight. -/
def compOneProject : Completeness :=
  { score := 12
    suggestions := ["Create a complete profile with name, title, bio, email, and image",
      "Create a skills section with categorized technical skills",
      "Add more projects - you have 1 but 2 or more is recommended",
      "Create experience section to showcase your professional background",
      "Create publications section to showcase your research work",
      "Create education section to showcase your professional background"]
    completedSections := []
    missingSections := ["Profile", "Skills", "Projects", "Experience", "Publications",
      "Education"] }

/-- C9: every ValidationResult built by the three validators satisfies
`isValid = errors.isEmpty`, and the aggregate of `validateAllContent` is
exactly the concatenation of the errors and warnings of its profile,
skills, and four collection validations, in order. -/
theorem validation_result_invariant (fs : FS) (fp ct name : String)
    (schema : Frontmatter → List ZodIssue) (maxYear : Int) :
    ((validateContentFile fs fp schema ct).isValid
        = (validateContentFile fs fp schema ct).errors.isEmpty)
    ∧ ((validateCollection fs name schema).isValid
        = (validateCollection fs name schema).errors.isEmpty)
    ∧ ((validateAllContent maxYear fs).isValid
        = (validateAllContent maxYear fs).errors.isEmpty)
    ∧ ((validateAllContent maxYear fs).errors
        = (validateProfile fs).errors ++ (validateSkills fs).errors
          ++ (validateCollection fs "projects" projectIssues).errors
          ++ (validateCollection fs "publications" (publicationIssues maxYear)).errors
          ++ (validateCollection fs "experience" experienceIssues).errors
          ++ (validateCollection fs "education" educationIssues).errors)
    ∧ ((validateAllContent maxYear fs).warnings
        = (validateProfile fs).warnings ++ (validateSkills fs).warnings
          ++ (validateCollection fs "projects" projectIssues).warnings
          ++ (validateCollection fs "publications" (publicationIssues maxYear)).warnings
          ++ (validateCollection fs "experience" experienceIssues).warnings
          ++ (validateCollection fs "education" educationIssues).warnings) := by
  refine ⟨?_, ?_, rfl, rfl, rfl⟩
  · unfold validateContentFile
    cases fs.file fp <;> simp
  · cases h : fs.dir (pathJoin "src/content" name) <;> simp [validateCollection, h]

/-- C3: the validators are total on every file-system state and convert
each failure mode into a recorded error entry: a missing file, a throwing
read/parse, a missing collection directory and a throwing directory read
each produce an invalid result carrying exactly the corresponding error,
and a missing profile file surfaces as a recorded error in the aggregate of
`validateAllContent` rather than as an exception. -/
theorem validator_never_throws (fs : FS) (fp ct name msg : String)
    (schema : Frontmatter → List ZodIssue) (maxYear : Int) :
    (fs.file fp = .missing →
      validateContentFile fs fp schema ct =
        { isValid := false
          errors := [{ file := fp, message := ct ++ " file not found", severity := .error }]
          warnings := [] })
    ∧ (fs.file fp = .raises msg →
      validateContentFile fs fp schema ct =
        { isValid := false
          errors := [{ file := fp, message := "Failed to parse file: " ++ msg
                       severity := .error }]
          warnings := [] })
    ∧ (fs.dir (pathJoin "src/content" name) = .missing →
      validateCollection fs name schema =
        { isValid := false
          errors := [{ file := pathJoin "src/content" name
                       message := "Collection directory not found: " ++ name
                       severity := .error }]
          warnings := [] })
    ∧ (fs.dir (pathJoin "src/content" name) = .raises msg →
      validateCollection fs name schema =
        { isValid := false
          errors := [{ file := pathJoin "src/content" name
                       message := "Failed to read collection directory: " ++ msg
                       severity := .error }]
          warnings := [] })
    ∧ (fs.file "src/content/profile/main.md" = .missing →
      ({ file := "src/content/profile/main.md", message := "profile file not found"
         severity := .error } : ValidationError) ∈ (validateAllContent maxYear fs).errors) := by
  refine ⟨?_, ?_, ?_, ?_, ?_⟩
  · intro h; unfold validateContentFile; rw [h]
  · intro h; unfold validateContentFile; rw [h]; rfl
  · intro h; simp [validateCollection, h]
  · intro h; simp [validateCollection, h]
  · intro h
    unfold validateAllContent validateProfile validateContentFile
    rw [h]
    simp

/-- C3 witness: the four failure conversions evaluated on concrete states. -/
theorem validator_never_throws_witness :
    validateContentFile fsParseMix "src/content/projects/c.md" projectIssues "projects" =
      { isValid := false
        errors := [{ file := "src/content/projects/c.md"
                     message := "projects file not found", severity := .error }]
        warnings := [] }
    ∧ validateContentFile fsParseMix "src/content/projects/a.md" projectIssues "projects" =
      { isValid := false
        errors := [{ file := "src/content/projects/a.md"
                     message := "Failed to parse file: boom", severity := .error }]
        warnings := [] }
    ∧ validateCollection fsParseMix "education" educationIssues =
      { isValid := false
        errors := [{ file := "src/content/education"
                     message := "Collection directory not found: education", severity := .error }]
        warnings := [] }
    ∧ validateCollection fsDirRaises "projects" projectIssues =
      { isValid := false
        errors := [{ file := "src/content/projects"
                     message := "Failed to read collection directory: EACCES"
                     severity := .error }]
        warnings := [] }
    ∧ ({ file := "src/content/profile/main.md", message := "profile file not found"
         severity := .error } : ValidationError) ∈ (validateAllContent 2030 fsAllMissing).errors :=
  ⟨(validator_never_throws fsParseMix "src/content/projects/c.md" "projects" "education" "boom"
      projectIssues 2030).1 rfl,
   (validator_never_throws fsParseMix "src/content/projects/a.md" "projects" "education" "boom"
      projectIssues 2030).2.1 rfl,
   (validator_never_throws fsParseMix "src/content/projects/c.md" "projects" "education" "boom"
      educationIssues 2030).2.2.1 rfl,
   (validator_never_throws fsDirRaises "src/content/projects/c.md" "projects" "projects" "EACCES"
      projectIssues 2030).2.2.2.1 rfl,
   (validator_never_throws fsAllMissing "x" "t" "projects" "m" projectIssues 2030).2.2.2.2 rfl⟩

/-- C10: a collection directory that exists but holds no entry passing the
`.md`-and-not-dot-file filter validates with no errors and exactly the one
no-content warning; entries failing the filter are never validated and
contribute nothing. -/
theorem empty_collection_passes (fs : FS) (name : String)
    (schema : Frontmatter → List ZodIssue) (entries : List String)
    (hdir : fs.dir (pathJoin "src/content" name) = .ok entries)
    (hnone : entries.filter mdEntry = []) :
    validateCollection fs name schema =
      { isValid := true
        errors := []
        warnings := [{ file := pathJoin "src/content" name
                       message := "No content files found in " ++ name ++ " collection" }] } := by
  simp [validateCollection, hdir, hnone]

/-- C10 witness: a projects directory holding only a non-markdown file and
a dot-file passes with the single no-content warning. -/
theorem empty_collection_passes_witness :
    validateCollection fsJunkEntries "projects" projectIssues =
      { isValid := true
        errors := []
        warnings := [{ file := "src/content/projects"
                       message := "No content files found in projects collection" }] } :=
  empty_collection_passes fsJunkEntries "projects" projectIssues ["notes.txt", ".draft.md"]
    rfl (by decide)

/-- C4: when the collection directory lists `entries`, the aggregate is
exactly the in-order concatenation of every filtered file's own validation
(so a parse failure in one file leaves every other file's errors and
warnings in place, and each file is validated exactly once), and a file
whose parse throws contributes its recorded parse-error entry. -/
theorem parse_failure_continuation (fs : FS) (name : String)
    (schema : Frontmatter → List ZodIssue) (entries : List String)
    (hdir : fs.dir (pathJoin "src/content" name) = .ok entries) :
    ((validateCollection fs name schema).errors
      = (entries.filter mdEntry).flatMap
          (fun f => (validateContentFile fs (pathJoin (pathJoin "src/content" name) f)
            schema name).errors))
    ∧ ((validateCollection fs name schema).warnings
      = (if (entries.filter mdEntry).isEmpty then
          [{ file := pathJoin "src/content" name
             message := "No content files found in " ++ name ++ " collection" }]
         else [])
        ++ (entries.filter mdEntry).flatMap
            (fun f => (validateContentFile fs (pathJoin (pathJoin "src/content" name) f)
              schema name).warnings))
    ∧ ∀ f ∈ entries.filter mdEntry, ∀ msg,
        fs.file (pathJoin (pathJoin "src/content" name) f) = .raises msg →
        ({ file := pathJoin (pathJoin "src/content" name) f
           message := "Failed to parse file: " ++ msg
           severity := .error } : ValidationError) ∈ (validateCollection fs name schema).errors := by
  refine ⟨?_, ?_, ?_⟩
  · simp [validateCollection, hdir, List.flatMap_map, Function.comp]
  · simp [validateCollection, hdir, List.flatMap_map, Function.comp]
  · intro f hf msg hraise
    have herr : (validateContentFile fs (pathJoin (pathJoin "src/content" name) f) schema
        name).errors
        = [{ file := pathJoin (pathJoin "src/content" name) f
             message := "Failed to parse file: " ++ msg, severity := .error }] := by
      unfold validateContentFile
      rw [hraise]
    simp only [validateCollection, hdir, List.flatMap_map, Function.comp]
    simp only [List.mem_flatMap]
    exact ⟨f, hf, by rw [herr]; exact List.mem_singleton.mpr rfl⟩

/-- C4 witness: in a projects collection whose first file fails to parse,
the parse error is recorded and the second file was still validated. -/
theorem parse_failure_continuation_witness :
    (({ file := "src/content/projects/a.md", message := "Failed to parse file: boom"
        severity := .error } : ValidationError)
      ∈ (validateCollection fsParseMix "projects" projectIssues).errors)
    ∧ (validateCollection fsParseMix "projects" projectIssues).errors
      = (["a.md", "b.md"].filter mdEntry).flatMap
          (fun f => (validateContentFile fsParseMix (pathJoin "src/content/projects" f)
            projectIssues "projects").errors) :=
  ⟨(parse_failure_continuation fsParseMix "projects" projectIssues ["a.md", "b.md"] rfl).2.2
      "a.md" (by decide) "boom" rfl,
   (parse_failure_continuation fsParseMix "projects" projectIssues ["a.md", "b.md"] rfl).1⟩

/-- C2: with the content summary not throwing, a run fails exactly when the
error list is non-empty — `isValid` is false iff there are errors (warnings
play no part), the non-watch CLI exits 1 iff there are errors, and with no
errors it completes successfully whatever the warnings. -/
theorem severity_semantics (maxYear : Int) (fs : FS)
    (hok : contentCountsRaise fs = false) :
    ((validateAllContent maxYear fs).isValid = false
      ↔ (validateAllContent maxYear fs).errors ≠ [])
    ∧ (runValidation false maxYear fs = .exited 1
      ↔ (validateAllContent maxYear fs).errors ≠ [])
    ∧ ((validateAllContent maxYear fs).errors = [] →
        runValidation false maxYear fs = .completed true) := by
  have hval : (validateAllContent maxYear fs).isValid
      = (validateAllContent maxYear fs).errors.isEmpty := rfl
  have hiff : (validateAllContent maxYear fs).isValid = false
      ↔ (validateAllContent maxYear fs).errors ≠ [] := by
    rw [hval]
    cases (validateAllContent maxYear fs).errors <;> simp
  refine ⟨hiff, ?_, ?_⟩
  · unfold runValidation
    rw [hok]
    simp only [Bool.false_eq_true, if_false]
    by_cases hv : (validateAllContent maxYear fs).isValid
    · have he : (validateAllContent maxYear fs).errors.isEmpty = true := by
        rw [← hval]; exact hv
      simp [hv, List.isEmpty_iff.mp he]
    · have := hiff.mp (by simpa using hv)
      simp [hv, this]
  · intro h
    unfold runValidation
    rw [hok]
    have hv : (validateAllContent maxYear fs).isValid = true := by
      rw [hval, h]; rfl
    simp [hv]

/-- C2 witness: a state whose validation yields no errors but several
warnings (all collections empty) still completes successfully, and an
all-missing state exits 1 with a non-empty error list. -/
theorem severity_semantics_witness :
    ((validateAllContent 2030 fsAllPass).errors = []
      ∧ (validateAllContent 2030 fsAllPass).warnings ≠ []
      ∧ runValidation false 2030 fsAllPass = .completed true)
    ∧ ((validateAllContent 2030 fsAllMissing).errors ≠ []
      ∧ runValidation false 2030 fsAllMissing = .exited 1) :=
  ⟨⟨by decide, by decide,
    (severity_semantics 2030 fsAllPass (by decide)).2.2 (by decide)⟩,
   ⟨by decide,
    (severity_semantics 2030 fsAllMissing (by decide)).2.1.mpr (by decide)⟩⟩

/-- C5: without `--watch` the script exits 1 whenever the summary throws or
validation fails; with `--watch` it never exits, and the watcher callback
re-runs validation exactly for change events naming a `.md` file. -/
theorem cli_exit_behavior (maxYear : Int) (fs : FS) (f : String) :
    (contentCountsRaise fs = true → runValidation false maxYear fs = .exited 1)
    ∧ ((validateAllContent maxYear fs).isValid = false →
        runValidation false maxYear fs = .exited 1)
    ∧ (∀ c, runValidation true maxYear fs ≠ .exited c)
    ∧ watchTriggersRevalidation (some f) = strEnds f ".md"
    ∧ watchTriggersRevalidation none = false := by
  refine ⟨?_, ?_, ?_, rfl, rfl⟩
  · intro h
    unfold runValidation
    rw [h]
    rfl
  · intro h
    unfold runValidation
    by_cases hc : contentCountsRaise fs
    · simp [hc]
    · simp [hc, h]
  · intro c
    unfold runValidation
    by_cases hc : contentCountsRaise fs
    · simp [hc]
    · by_cases hv : (validateAllContent maxYear fs).isValid <;> simp [hc, hv]

/-- C5 witness: a throwing summary exits 1, a failing validation exits 1,
watch mode does not exit on the same failing state, and the watcher
predicate fires for `note.md` but not for `note.txt` or a nameless
event. -/
theorem cli_exit_behavior_witness :
    runValidation false 2030 fsDirRaises = .exited 1
    ∧ runValidation false 2030 fsAllMissing = .exited 1
    ∧ runValidation true 2030 fsAllMissing ≠ .exited 1
    ∧ watchTriggersRevalidation (some "note.md") = true
    ∧ watchTriggersRevalidation (some "note.txt") = false
    ∧ watchTriggersRevalidation none = false :=
  ⟨(cli_exit_behavior 2030 fsDirRaises "note.md").1 (by decide),
   (cli_exit_behavior 2030 fsAllMissing "note.md").2.1 (by decide),
   (cli_exit_behavior 2030 fsAllMissing "note.md").2.2.1 1,
   by decide, by decide,
   (cli_exit_behavior 2030 fsAllMissing "note.md").2.2.2.2⟩

/-- C8: the short-content check never fires for project or publication
files as the pipeline validates them.  `validateCollection` passes the
collection name (`projects`, `publications`) as `contentType`, but the
check compares against the singular `project` and `publication`, so a
ten-character project body yields no warning through the pipeline, while
the same body yields the warning for `experience` (whose collection name
matches) or when the singular `project` is passed directly. -/
theorem short_content_warning_bug :
    strLen (jsTrim "Too short.") < 50
    ∧ (validateCollection fsShortProject "projects" projectIssues).warnings = []
    ∧ (validateCollection fsShortProject "publications" (publicationIssues 2030)).warnings = []
    ∧ (validateCollection fsShortProject "experience" experienceIssues).warnings
        = [{ file := "src/content/experience/a.md"
             message :=
               "experience content is very short (less than 50 characters). Consider adding more details." }]
    ∧ (validateCollection fsShortProject "education" educationIssues).warnings
        = [{ file := "src/content/education/a.md"
             message :=
               "education content is very short (less than 50 characters). Consider adding more details." }]
    ∧ (validateContentFile fsShortProject "src/content/projects/a.md" projectIssues
        "project").warnings
        = [{ file := "src/content/projects/a.md"
             message :=
               "project content is very short (less than 50 characters). Consider adding more details." }] :=
  ⟨by decide, by decide, by decide, by decide, by decide, by decide⟩

/-- A list with a member is not empty (Bool form). -/
theorem isEmpty_false_of_mem {α : Type} {x : α} {l : List α} (h : x ∈ l) :
    l.isEmpty = false := by
  cases l with
  | nil => cases h
  | cons a t => rfl

/-- The required-string check passes (no issues) exactly when the
declarative field predicate holds. -/
theorem zReqStrMin_nil (p : List String) (fm : Frontmatter) (k : String) (n : Nat)
    (msg : String) : zReqStrMin p fm k n msg = [] ↔ reqStrOK fm k n = true := by
  unfold zReqStrMin reqStrOK
  cases h : fmLookup fm k with
  | none => simp
  | some v =>
    cases v <;> simp

/-- The email check passes exactly when the declarative predicate holds. -/
theorem zReqEmail_nil (p : List String) (fm : Frontmatter) (k : String) (msg : String) :
    zReqEmail p fm k msg = [] ↔ emailOK fm k = true := by
  unfold zReqEmail emailOK
  cases h : fmLookup fm k with
  | none => simp
  | some v =>
    cases v <;> simp

/-- The optional-string check passes exactly when the declarative
predicate holds. -/
theorem zOptStr_nil (p : List String) (o : Frontmatter) (k : String) :
    zOptStr p o k = [] ↔ optStrOK o k = true := by
  unfold zOptStr optStrOK
  cases h : fmLookup o k with
  | none => simp
  | some v => cases v <;> simp

/-- The social-object check passes exactly when the declarative predicate
holds. -/
theorem zSocial_nil (fm : Frontmatter) : zSocial fm = [] ↔ socialOK fm = true := by
  unfold zSocial socialOK
  cases h : fmLookup fm "social" with
  | none => simp
  | some v =>
    cases v <;> simp [List.append_eq_nil, zOptStr_nil, and_assoc]

/-- Round-trip core: `profileSchema.safeParse` yields no issues exactly
when the front-matter satisfies the declarative reading of the schema. -/
theorem profileIssues_nil (fm : Frontmatter) :
    profileIssues fm = [] ↔ profileSatisfies fm = true := by
  unfold profileIssues profileSatisfies
  simp [List.append_eq_nil, zReqStrMin_nil, zReqEmail_nil, zSocial_nil, Bool.and_eq_true,
    and_assoc]

/-- Removing a key makes its lookup fail. -/
theorem fmLookup_removeKey (fm : Frontmatter) (k : String) :
    fmLookup (removeKey fm k) k = none := by
  induction fm with
  | nil => rfl
  | cons e rest ih =>
    obtain ⟨k1, v1⟩ := e
    by_cases h : k1 == k
    · have hr : removeKey ((k1, v1) :: rest) k = removeKey rest k := by
        simp [removeKey, List.filter_cons, bne, h]
      rw [hr]; exact ih
    · have hr : removeKey ((k1, v1) :: rest) k = (k1, v1) :: removeKey rest k := by
        simp [removeKey, List.filter_cons, bne, h]
      rw [hr]
      unfold fmLookup
      simp [h]
      exact ih

/-- A required-string field of a removed key reports "Required". -/
theorem zReqStrMin_removed (p : List String) (fm : Frontmatter) (k : String) (n : Nat)
    (msg : String) : zReqStrMin p (removeKey fm k) k n msg = [⟨p ++ [k], "Required"⟩] := by
  unfold zReqStrMin
  rw [fmLookup_removeKey]

/-- The email field of a removed key reports "Required". -/
theorem zReqEmail_removed (p : List String) (fm : Frontmatter) (k : String) (msg : String) :
    zReqEmail p (removeKey fm k) k msg = [⟨p ++ [k], "Required"⟩] := by
  unfold zReqEmail
  rw [fmLookup_removeKey]

/-- The social object, once removed, reports "Required". -/
theorem zSocial_removed (fm : Frontmatter) :
    zSocial (removeKey fm "social") = [⟨["social"], "Required"⟩] := by
  unfold zSocial
  rw [fmLookup_removeKey]

/-- Removing any top-level required profile field puts the "Required"
issue for exactly that field among the schema issues. -/
theorem profileIssues_required (fm : Frontmatter) (k : String)
    (hk : k ∈ profileRequiredKeys) :
    (⟨[k], "Required"⟩ : ZodIssue) ∈ profileIssues (removeKey fm k) := by
  have hk' : k = "name" ∨ k = "title" ∨ k = "bio" ∨ k = "email" ∨ k = "location"
      ∨ k = "profileImage" ∨ k = "social" := by
    simpa [profileRequiredKeys] using hk
  unfold profileIssues
  rcases hk' with h | h | h | h | h | h | h <;> subst h <;>
    simp [zReqStrMin_removed, zReqEmail_removed, zSocial_removed, List.mem_append]

/-- C1: a content file that exists, parses, and whose front-matter
satisfies the profile schema validates with an empty error list (so
`isValid` is true); and removing any single required field makes the
validation invalid with an error entry whose `field` names exactly the
removed key. -/
theorem profile_schema_roundtrip (fs fs' : FS) (fp ct k : String) (fm : Frontmatter)
    (body body' : String)
    (hread : fs.file fp = .ok fm body)
    (hsat : profileSatisfies fm = true)
    (hk : k ∈ profileRequiredKeys)
    (hread' : fs'.file fp = .ok (removeKey fm k) body') :
    ((validateContentFile fs fp profileIssues ct).errors = []
      ∧ (validateContentFile fs fp profileIssues ct).isValid = true)
    ∧ ((validateContentFile fs' fp profileIssues ct).isValid = false
      ∧ ∃ e ∈ (validateContentFile fs' fp profileIssues ct).errors, e.field = some k) := by
  have hnil : profileIssues fm = [] := (profileIssues_nil fm).mpr hsat
  have hmem := profileIssues_required fm k hk
  have he : ({ file := fp, field := some k, message := "Required",
               severity := .error } : ValidationError)
      ∈ (validateContentFile fs' fp profileIssues ct).errors := by
    unfold validateContentFile
    rw [hread']
    exact List.mem_map_of_mem _ hmem
  refine ⟨?_, ?_, ⟨_, he, rfl⟩⟩
  · unfold validateContentFile
    rw [hread]
    simp [hnil]
  · have hne := isEmpty_false_of_mem he
    unfold validateContentFile at hne ⊢
    rw [hread'] at hne ⊢
    exact hne

/-- C1 witness: the concrete valid profile front-matter passes with no
errors, and dropping its `email` field fails with an error naming
`email`. -/
theorem profile_schema_roundtrip_witness :
    ((validateContentFile fsAllPass "src/content/profile/main.md" profileIssues
        "profile").errors = []
      ∧ (validateContentFile fsAllPass "src/content/profile/main.md" profileIssues
        "profile").isValid = true)
    ∧ ((validateContentFile
          { file := fun _ => .ok (removeKey fmProfileOk "email") ""
            dir := fun _ => .ok [], publicAsset := fun _ => true }
          "src/content/profile/main.md" profileIssues "profile").isValid = false
      ∧ ∃ e ∈ (validateContentFile
          { file := fun _ => .ok (removeKey fmProfileOk "email") ""
            dir := fun _ => .ok [], publicAsset := fun _ => true }
          "src/content/profile/main.md" profileIssues "profile").errors,
          e.field = some "email") :=
  profile_schema_roundtrip fsAllPass
    { file := fun _ => .ok (removeKey fmProfileOk "email") ""
      dir := fun _ => .ok [], publicAsset := fun _ => true }
    "src/content/profile/main.md" "profile" "email" fmProfileOk "" ""
    rfl (by decide) (by decide) rfl

/-- One conditional summand is monotone in its condition. -/
theorem condPts_mono (a b : Bool) (k : Nat) (h : a = true → b = true) :
    (if a then k else 0) ≤ (if b then k else 0) := by
  cases a with
  | false => simp
  | true => rw [h rfl]

/-- The profile point sum is monotone in its four conditions. -/
theorem profilePts_mono (b1 b2 b3 b4 c1 c2 c3 c4 : Bool)
    (h1 : b1 = true → c1 = true) (h2 : b2 = true → c2 = true)
    (h3 : b3 = true → c3 = true) (h4 : b4 = true → c4 = true) :
    profilePts b1 b2 b3 b4 ≤ profilePts c1 c2 c3 c4 := by
  unfold profilePts
  exact Nat.add_le_add (Nat.add_le_add (Nat.add_le_add (condPts_mono b1 c1 10 h1)
    (condPts_mono b2 c2 5 h2)) (condPts_mono b3 c3 3 h3)) (condPts_mono b4 c4 2 h4)

/-- The skills point sum is monotone in its two conditions. -/
theorem skillsPts_mono (s1 s2 t1 t2 : Bool)
    (h1 : s1 = true → t1 = true) (h2 : s2 = true → t2 = true) :
    skillsPts s1 s2 ≤ skillsPts t1 t2 := by
  unfold skillsPts
  exact Nat.add_le_add (condPts_mono s1 t1 10 h1) (condPts_mono s2 t2 5 h2)

/-- The collection points are monotone in the file count. -/
theorem collectionPts_mono (w m n n' : Nat) (h : n ≤ n') :
    collectionPts w m n ≤ collectionPts w m n' := by
  unfold collectionPts
  split_ifs <;> omega

/-- The profile point sum never exceeds 20. -/
theorem profilePts_le (a b c d : Bool) : profilePts a b c d ≤ 20 := by
  cases a <;> cases b <;> cases c <;> cases d <;> decide

/-- The skills point sum never exceeds 15. -/
theorem skillsPts_le (a b : Bool) : skillsPts a b ≤ 15 := by
  cases a <;> cases b <;> decide

/-- The profile block earns at most its 20-point weight. -/
theorem profileSection_pts_le (r : FileRead) : (profileSection r).pts ≤ 20 := by
  cases r with
  | ok fm body =>
    simp only [profileSection]
    split <;> exact profilePts_le _ _ _ _
  | missing => exact Nat.zero_le 20
  | raises msg => exact Nat.zero_le 20

/-- The skills block earns at most its 15-point weight. -/
theorem skillsSection_pts_le (r : FileRead) : (skillsSection r).pts ≤ 15 := by
  cases r with
  | ok fm body =>
    simp only [skillsSection]
    split
    · split <;> exact skillsPts_le _ _
    · exact Nat.zero_le 15
  | missing => exact Nat.zero_le 15
  | raises msg => exact Nat.zero_le 15

/-- A collection block that returns earns the full weight, the floor of
half of it, or nothing. -/
theorem collectionSection_pts_cases (fs : FS) (name : String) (w m : Nat)
    (r : SectionResult) (h : collectionSection fs name w m = some r) :
    r.pts = w ∨ r.pts = w / 2 ∨ r.pts = 0 := by
  unfold collectionSection at h
  cases hd : fs.dir (pathJoin "src/content" name) <;> rw [hd] at h
  case missing =>
    cases h
    right; right; rfl
  case raises msg => cases h
  case ok es =>
    simp only [] at h
    split_ifs at h <;> cases h
    · left; rfl
    · right; left; rfl
    · right; right; rfl

/-- A collection block over a listed directory earns exactly the
`collectionPts` of its `.md` count. -/
theorem collectionSection_pts_of_ok (fs : FS) (name : String) (w m : Nat)
    (es : List String) (r : SectionResult)
    (hdir : fs.dir (pathJoin "src/content" name) = .ok es)
    (hr : collectionSection fs name w m = some r) :
    r.pts = collectionPts w m (mdCount es) := by
  unfold collectionSection at hr
  rw [hdir] at hr
  simp only [] at hr
  unfold collectionPts
  split_ifs at hr ⊢ <;> cases hr <;> rfl

/-- A collection block only looks at its own directory. -/
theorem collectionSection_congr (fs fs' : FS) (name : String) (w m : Nat)
    (h : fs'.dir (pathJoin "src/content" name) = fs.dir (pathJoin "src/content" name)) :
    collectionSection fs' name w m = collectionSection fs name w m := by
  unfold collectionSection
  rw [h]

/-- Appending one `.md` entry raises the `.md` count by one. -/
theorem mdCount_append_md (es : List String) (g : String) (hg : strEnds g ".md" = true) :
    mdCount (es ++ [g]) = mdCount es + 1 := by
  unfold mdCount
  rw [List.filter_append]
  simp [hg]

/-- Decomposition of a returned completeness score into its six section
point sums. -/
theorem score_decomp (fs : FS) (c : Completeness)
    (h : validateContentCompleteness fs = some c) :
    ∃ r1 r2 r3 r4,
      collectionSection fs "projects" 25 2 = some r1
      ∧ collectionSection fs "experience" 20 1 = some r2
      ∧ collectionSection fs "publications" 10 1 = some r3
      ∧ collectionSection fs "education" 10 1 = some r4
      ∧ c.score = (profileSection (fs.file "src/content/profile/main.md")).pts
          + (skillsSection (fs.file "src/content/skills/main.md")).pts
          + (r1.pts + r2.pts + r3.pts + r4.pts) := by
  unfold validateContentCompleteness at h
  rcases h1 : collectionSection fs "projects" 25 2 with _ | r1 <;> rw [h1] at h
  · cases h
  rcases h2 : collectionSection fs "experience" 20 1 with _ | r2 <;> rw [h2] at h
  · cases h
  rcases h3 : collectionSection fs "publications" 10 1 with _ | r3 <;> rw [h3] at h
  · cases h
  rcases h4 : collectionSection fs "education" 10 1 with _ | r4 <;> rw [h4] at h
  · cases h
  cases h
  exact ⟨r1, r2, r3, r4, rfl, rfl, rfl, rfl, rfl⟩

/-- C7: a returned completeness score is the plain sum of the six section
point sums — profile capped at 20, skills at 15, and each collection
earning its full weight (projects 25, experience 20, publications 10,
education 10), the floor of half of it when non-empty but under-populated,
or zero — and is therefore an integer between 0 and 100. -/
theorem completeness_score_sum (fs : FS) (c : Completeness)
    (h : validateContentCompleteness fs = some c) :
    c.score ≤ 100
    ∧ ∃ r1 r2 r3 r4,
        collectionSection fs "projects" 25 2 = some r1
        ∧ collectionSection fs "experience" 20 1 = some r2
        ∧ collectionSection fs "publications" 10 1 = some r3
        ∧ collectionSection fs "education" 10 1 = some r4
        ∧ c.score = (profileSection (fs.file "src/content/profile/main.md")).pts
            + (skillsSection (fs.file "src/content/skills/main.md")).pts
            + (r1.pts + r2.pts + r3.pts + r4.pts)
        ∧ (profileSection (fs.file "src/content/profile/main.md")).pts ≤ 20
        ∧ (skillsSection (fs.file "src/content/skills/main.md")).pts ≤ 15
        ∧ (r1.pts = 25 ∨ r1.pts = 12 ∨ r1.pts = 0)
        ∧ (r2.pts = 20 ∨ r2.pts = 10 ∨ r2.pts = 0)
        ∧ (r3.pts = 10 ∨ r3.pts = 5 ∨ r3.pts = 0)
        ∧ (r4.pts = 10 ∨ r4.pts = 5 ∨ r4.pts = 0) := by
  obtain ⟨r1, r2, r3, r4, e1, e2, e3, e4, hs⟩ := score_decomp fs c h
  have p1 := collectionSection_pts_cases fs "projects" 25 2 r1 e1
  have p2 := collectionSection_pts_cases fs "experience" 20 1 r2 e2
  have p3 := collectionSection_pts_cases fs "publications" 10 1 r3 e3
  have p4 := collectionSection_pts_cases fs "education" 10 1 r4 e4
  norm_num at p1 p2 p3 p4
  have bp := profileSection_pts_le (fs.file "src/content/profile/main.md")
  have bs := skillsSection_pts_le (fs.file "src/content/skills/main.md")
  refine ⟨?_, r1, r2, r3, r4, e1, e2, e3, e4, hs, bp, bs, p1, p2, p3, p4⟩
  rcases p1 with h1 | h1 | h1 <;> rcases p2 with h2 | h2 | h2 <;>
    rcases p3 with h3 | h3 | h3 <;> rcases p4 with h4 | h4 | h4 <;> omega

/-- C7 witness: the all-missing state scores zero, within bounds. -/
theorem completeness_score_sum_witness :
    validateContentCompleteness fsAllMissing = some compAllMissing
    ∧ compAllMissing.score ≤ 100 :=
  ⟨by decide, (completeness_score_sum fsAllMissing compAllMissing (by decide)).1⟩

/-- C6: the completeness score is monotone — the collection points never
decrease as the file count grows, the profile and skills point sums never
decrease as more of their conditions hold, and landing one more `.md` file
in any scored collection directory never lowers a returned score. -/
theorem completeness_score_monotone (w m n n' : Nat)
    (b1 b2 b3 b4 c1 c2 c3 c4 s1 s2 t1 t2 : Bool)
    (fs fs' : FS) (name g : String) (entries : List String) (c c' : Completeness) :
    (n ≤ n' → collectionPts w m n ≤ collectionPts w m n')
    ∧ ((b1 = true → c1 = true) → (b2 = true → c2 = true) → (b3 = true → c3 = true) →
        (b4 = true → c4 = true) → profilePts b1 b2 b3 b4 ≤ profilePts c1 c2 c3 c4)
    ∧ ((s1 = true → t1 = true) → (s2 = true → t2 = true) →
        skillsPts s1 s2 ≤ skillsPts t1 t2)
    ∧ (name ∈ contentDirs →
        fs'.file = fs.file →
        (∀ p, p ≠ pathJoin "src/content" name → fs'.dir p = fs.dir p) →
        fs.dir (pathJoin "src/content" name) = .ok entries →
        fs'.dir (pathJoin "src/content" name) = .ok (entries ++ [g]) →
        strEnds g ".md" = true →
        validateContentCompleteness fs = some c →
        validateContentCompleteness fs' = some c' →
        c.score ≤ c'.score) := by
  refine ⟨collectionPts_mono w m n n',
    fun h1 h2 h3 h4 => profilePts_mono b1 b2 b3 b4 c1 c2 c3 c4 h1 h2 h3 h4,
    fun h1 h2 => skillsPts_mono s1 s2 t1 t2 h1 h2, ?_⟩
  intro hmem hfile hdirs hdir hdir' hg hc hc'
  obtain ⟨r1, r2, r3, r4, e1, e2, e3, e4, hs⟩ := score_decomp fs c hc
  obtain ⟨q1, q2, q3, q4, f1, f2, f3, f4, hs'⟩ := score_decomp fs' c' hc'
  rw [hfile] at hs'
  have hmem' : name = "projects" ∨ name = "publications" ∨ name = "experience"
      ∨ name = "education" := by simpa [contentDirs] using hmem
  have hstep := Nat.le_succ (mdCount entries)
  rcases hmem' with h | h | h | h <;> subst h
  · have hq2 : q2 = r2 := by
      have hx := f2
      rw [collectionSection_congr fs fs' "experience" 20 1 (hdirs _ (by decide)), e2] at hx
      exact (Option.some.inj hx).symm
    have hq3 : q3 = r3 := by
      have hx := f3
      rw [collectionSection_congr fs fs' "publications" 10 1 (hdirs _ (by decide)), e3] at hx
      exact (Option.some.inj hx).symm
    have hq4 : q4 = r4 := by
      have hx := f4
      rw [collectionSection_congr fs fs' "education" 10 1 (hdirs _ (by decide)), e4] at hx
      exact (Option.some.inj hx).symm
    have hr : r1.pts = collectionPts 25 2 (mdCount entries) :=
      collectionSection_pts_of_ok fs "projects" 25 2 entries r1 hdir e1
    have hq : q1.pts = collectionPts 25 2 (mdCount entries + 1) := by
      have hx := collectionSection_pts_of_ok fs' "projects" 25 2 (entries ++ [g]) q1 hdir' f1
      rwa [mdCount_append_md entries g hg] at hx
    have hmono := collectionPts_mono 25 2 (mdCount entries) (mdCount entries + 1) hstep
    rw [hq2, hq3, hq4] at hs'
    omega
  · have hq1 : q1 = r1 := by
      have hx := f1
      rw [collectionSection_congr fs fs' "projects" 25 2 (hdirs _ (by decide)), e1] at hx
      exact (Option.some.inj hx).symm
    have hq2 : q2 = r2 := by
      have hx := f2
      rw [collectionSection_congr fs fs' "experience" 20 1 (hdirs _ (by decide)), e2] at hx
      exact (Option.some.inj hx).symm
    have hq4 : q4 = r4 := by
      have hx := f4
      rw [collectionSection_congr fs fs' "education" 10 1 (hdirs _ (by decide)), e4] at hx
      exact (Option.some.inj hx).symm
    have hr : r3.pts = collectionPts 10 1 (mdCount entries) :=
      collectionSection_pts_of_ok fs "publications" 10 1 entries r3 hdir e3
    have hq : q3.pts = collectionPts 10 1 (mdCount entries + 1) := by
      have hx := collectionSection_pts_of_ok fs' "publications" 10 1 (entries ++ [g]) q3 hdir' f3
      rwa [mdCount_append_md entries g hg] at hx
    have hmono := collectionPts_mono 10 1 (mdCount entries) (mdCount entries + 1) hstep
    rw [hq1, hq2, hq4] at hs'
    omega
  · have hq1 : q1 = r1 := by
      have hx := f1
      rw [collectionSection_congr fs fs' "projects" 25 2 (hdirs _ (by decide)), e1] at hx
      exact (Option.some.inj hx).symm
    have hq3 : q3 = r3 := by
      have hx := f3
      rw [collectionSection_congr fs fs' "publications" 10 1 (hdirs _ (by decide)), e3] at hx
      exact (Option.some.inj hx).symm
    have hq4 : q4 = r4 := by
      have hx := f4
      rw [collectionSection_congr fs fs' "education" 10 1 (hdirs _ (by decide)), e4] at hx
      exact (Option.some.inj hx).symm
    have hr : r2.pts = collectionPts 20 1 (mdCount entries) :=
      collectionSection_pts_of_ok fs "experience" 20 1 entries r2 hdir e2
    have hq : q2.pts = collectionPts 20 1 (mdCount entries + 1) := by
      have hx := collectionSection_pts_of_ok fs' "experience" 20 1 (entries ++ [g]) q2 hdir' f2
      rwa [mdCount_append_md entries g hg] at hx
    have hmono := collectionPts_mono 20 1 (mdCount entries) (mdCount entries + 1) hstep
    rw [hq1, hq3, hq4] at hs'
    omega
  · have hq1 : q1 = r1 := by
      have hx := f1
      rw [collectionSection_congr fs fs' "projects" 25 2 (hdirs _ (by decide)), e1] at hx
      exact (Option.some.inj hx).symm
    have hq2 : q2 = r2 := by
      have hx := f2
      rw [collectionSection_congr fs fs' "experience" 20 1 (hdirs _ (by decide)), e2] at hx
      exact (Option.some.inj hx).symm
    have hq3 : q3 = r3 := by
      have hx := f3
      rw [collectionSection_congr fs fs' "publications" 10 1 (hdirs _ (by decide)), e3] at hx
      exact (Option.some.inj hx).symm
    have hr : r4.pts = collectionPts 10 1 (mdCount entries) :=
      collectionSection_pts_of_ok fs "education" 10 1 entries r4 hdir e4
    have hq : q4.pts = collectionPts 10 1 (mdCount entries + 1) := by
      have hx := collectionSection_pts_of_ok fs' "education" 10 1 (entries ++ [g]) q4 hdir' f4
      rwa [mdCount_append_md entries g hg] at hx
    have hmono := collectionPts_mono 10 1 (mdCount entries) (mdCount entries + 1) hstep
    rw [hq1, hq2, hq3] at hs'
    omega

/-- C6 witness: dropping one `p1.md` into the empty projects directory
raises the returned score from 0 to 12, never lowering it. -/
theorem completeness_score_monotone_witness :
    validateContentCompleteness fsEmptyProjects = some compEmptyProjects
    ∧ validateContentCompleteness fsOneProject = some compOneProject
    ∧ compEmptyProjects.score ≤ compOneProject.score :=
  ⟨by decide, by decide,
   (completeness_score_monotone 25 2 0 1 false false false false false false false false
      false false false false fsEmptyProjects fsOneProject "projects" "p1.md" []
      compEmptyProjects compOneProject).2.2.2
     (by decide) rfl
     (by
       intro p hp
       have e : pathJoin "src/content" "projects" = "src/content/projects" := by decide
       rw [e] at hp
       simp [fsOneProject, fsEmptyProjects, beq_eq_false_iff_ne, hp])
     rfl rfl (by decide) (by decide) (by decide)⟩
